import Mathlib

/-!
Shallow embedding of the mongoose-express-ts REST API (authentication and
profile management routes) for specification checking.

The embedding models:
* the persistent document store (`DB`) as lists of `StoredUser` and
  `StoredProfile` records, following `src/models/Profile.ts` and the usage
  of the `User` model in the route handlers (fields `id`, `email`,
  `password`, `avatar`);
* the external library primitives (bcrypt's `compare`, express-validator's
  `isEmail`) as an explicit parameter record `Libs`, and jsonwebtoken's
  `sign`/`verify` by their documented contract (a signed token carries its
  payload and the signing secret; verification succeeds exactly when the
  secrets match);
* each Express route handler of `src/routes/api/auth.ts` and
  `src/routes/api/profile.ts` as a pure function from the store state and
  the request to an HTTP response (and the successor state for mutating
  routes).
-/

/-- A stored User document.  The `User` model file is not part of the
available sources; its fields are reconstructed from their usage in the
route handlers (`user.password`, `user.id`, `.select("-password")`,
`.populate("user", ["avatar", "email"])`) and from the spec's data model
(`id`, `email`, `passwordHash`).  Ids are modelled as natural numbers. -/
structure StoredUser where
  id : Nat
  email : String
  password : String
  avatar : String
  deriving Repr, DecidableEq

/-- A stored Profile document, following the schema in
`src/models/Profile.ts`: a `user` reference, three required string fields
(`username` carrying a storage-level unique index), and a `date` timestamp
defaulted at creation time. -/
structure StoredProfile where
  id : Nat
  user : Nat
  firstName : String
  lastName : String
  username : String
  date : Nat
  deriving Repr, DecidableEq

/-- The persistent store: the `users` and `profiles` collections, plus a
counter supplying the fresh document id that `new Profile(...)` generates
at creation. -/
structure DB where
  users : List StoredUser
  profiles : List StoredProfile
  freshProfileId : Nat
  deriving Repr, DecidableEq

/-- The JWT payload (`src/types/Payload.ts` is described by the spec as the
claim `{ userId }`). -/
structure Payload where
  userId : Nat
  deriving Repr, DecidableEq

/-- A signed token, modelling jsonwebtoken's contract: the token is
tamper-evident data carrying the payload, the signing secret and the
expiration policy used at issuance. -/
structure Token where
  payload : Payload
  secret : String
  expiresIn : Nat
  deriving Repr, DecidableEq

/-- The process-wide configuration (`config.get("jwtSecret")`,
`config.get("jwtExpiration")`). -/
structure Config where
  jwtSecret : String
  jwtExpiration : Nat
  deriving Repr, DecidableEq

/-- jsonwebtoken `sign`: issue a token over the payload with the given
secret and expiration. -/
def jwtSign (p : Payload) (secret : String) (expiresIn : Nat) : Token :=
  ⟨p, secret, expiresIn⟩

/-- jsonwebtoken `verify` contract: verification with a secret succeeds
exactly when the token was signed with that secret, and then returns the
embedded payload unchanged. -/
def jwtVerify (t : Token) (secret : String) : Option Payload :=
  if t.secret = secret then some t.payload else none

/-- External library primitives that the handlers call but whose internals
are outside this repository: bcryptjs's `compare` and express-validator's
`isEmail` check.  Handlers are parameterised over them. -/
structure Libs where
  bcryptCompare : String → String → Bool
  isEmail : String → Bool

/-- The User document as serialized by `.select("-password")`: every field
except the password hash. -/
structure PublicUser where
  id : Nat
  email : String
  avatar : String
  deriving Repr, DecidableEq

/-- The linked User document as serialized by
`.populate("user", ["avatar", "email"])`: the selected fields plus the
document id that mongoose includes by default. -/
structure PopulatedUser where
  id : Nat
  avatar : String
  email : String
  deriving Repr, DecidableEq

/-- A Profile document after `.populate("user", ["avatar", "email"])`: the
`user` reference is replaced by the populated User view (or null when the
reference does not resolve). -/
structure PopulatedProfile where
  id : Nat
  user : Option PopulatedUser
  firstName : String
  lastName : String
  username : String
  date : Nat
  deriving Repr, DecidableEq

/-- The JSON body of a response, one constructor per body shape the
handlers produce. -/
inductive RespBody where
  | errors : List String → RespBody
  | token : Token → RespBody
  | msg : String → RespBody
  | userDoc : Option PublicUser → RespBody
  | profileDoc : Option StoredProfile → RespBody
  | populatedDoc : PopulatedProfile → RespBody
  | populatedDocs : List PopulatedProfile → RespBody
  | text : String → RespBody
  deriving Repr, DecidableEq

/-- An HTTP response: status code and body. -/
structure Resp where
  status : Nat
  body : RespBody
  deriving Repr, DecidableEq

/-- Mongoose `User.findOne({ email })`: first stored user with the given
email. -/
def userFindOneByEmail (db : DB) (email : String) : Option StoredUser :=
  db.users.find? (fun u => u.email = email)

/-- Mongoose `User.findById(id)` (also `User.findOne({ _id: id })`). -/
def userFindById (db : DB) (id : Nat) : Option StoredUser :=
  db.users.find? (fun u => u.id = id)

/-- Mongoose `Profile.findOne({ user })`: first stored profile referencing
the given user id. -/
def profileFindOneByUser (db : DB) (user : Nat) : Option StoredProfile :=
  db.profiles.find? (fun p => p.user = user)

/-- The `.select("-password")` projection on a User document. -/
def selectMinusPassword (u : StoredUser) : PublicUser :=
  ⟨u.id, u.email, u.avatar⟩

/-- The `.populate("user", ["avatar", "email"])` step: resolve the `user`
reference against the users collection and keep only the selected fields
(plus the id). -/
def populateUser (db : DB) (p : StoredProfile) : PopulatedProfile :=
  ⟨p.id, (userFindById db p.user).map (fun u => ⟨u.id, u.avatar, u.email⟩),
   p.firstName, p.lastName, p.username, p.date⟩

/-- GET `/api/auth` (identity fetch, after the auth middleware attached
`userId`): looks the user up by id, projects out the password and returns
the result as JSON.  A missing user serializes as a JSON null body with
status 200, since `res.json(user)` is reached either way. -/
def authGetHandler (db : DB) (userId : Nat) : Resp :=
  ⟨200, .userDoc ((userFindById db userId).map selectMinusPassword)⟩

/-- The request body of POST `/api/auth`. -/
structure LoginReq where
  email : String
  password : String
  deriving Repr, DecidableEq

/-- POST `/api/auth` (login): validate the email shape, look the user up by
email, check the password with bcrypt, and on success sign the `{ userId }`
payload.  Both the unknown-email case and the wrong-password case answer
400 with the same `Invalid Credentials` error body.  The `password`
presence check of express-validator is vacuous here because the modelled
request always carries a string password. -/
def authPostHandler (libs : Libs) (cfg : Config) (db : DB) (req : LoginReq) :
    Resp :=
  if ¬ libs.isEmail req.email then
    ⟨400, .errors ["Please include a valid email"]⟩
  else
    match userFindOneByEmail db req.email with
    | none => ⟨400, .errors ["Invalid Credentials"]⟩
    | some user =>
      if libs.bcryptCompare req.password user.password then
        ⟨200, .token (jwtSign ⟨user.id⟩ cfg.jwtSecret cfg.jwtExpiration)⟩
      else
        ⟨400, .errors ["Invalid Credentials"]⟩

/-- The request body of POST `/api/profile`. -/
structure ProfileReq where
  firstName : String
  lastName : String
  username : String
  deriving Repr, DecidableEq

/-- The express-validator checks of POST `/api/profile`: each of the three
fields is required non-empty, and every failing check contributes its
message to the error list. -/
def profileValidationErrors (body : ProfileReq) : List String :=
  (if body.firstName = "" then ["First Name is required"] else []) ++
  (if body.lastName = "" then ["Last Name is required"] else []) ++
  (if body.username = "" then ["Username is required"] else [])

/-- A storage-level write failure.  The unique index that
`src/models/Profile.ts` declares on `username` makes MongoDB reject a write
that would duplicate another document's username with a duplicate-key
error. -/
inductive StoreError where
  | duplicateKey
  deriving Repr, DecidableEq

/-- Mongoose `profile.save()` for a freshly constructed document: the
insert succeeds unless the unique index on `username` is violated by an
existing document; on success the document is appended to the collection
and the fresh-id counter advances past the id consumed by
`new Profile(...)`. -/
def profileSave (db : DB) (p : StoredProfile) : Except StoreError DB :=
  if db.profiles.any (fun q => q.username = p.username) then
    .error .duplicateKey
  else
    .ok { db with profiles := db.profiles ++ [p],
                  freshProfileId := db.freshProfileId + 1 }

/-- The `$set` document built by the upsert handler
(`profileFields = { user, firstName, lastName, username }`): note that it
also writes the `user` field, with the authenticated user id. -/
def setProfileFields (userId : Nat) (body : ProfileReq) (p : StoredProfile) :
    StoredProfile :=
  { p with user := userId, firstName := body.firstName,
           lastName := body.lastName, username := body.username }

/-- Update the first list entry satisfying the filter, leaving the rest of
the collection unchanged (per-document update semantics of
`findOneAndUpdate`). -/
def updateFirstBy (pred : StoredProfile → Bool)
    (f : StoredProfile → StoredProfile) :
    List StoredProfile → List StoredProfile
  | [] => []
  | p :: ps => if pred p then f p :: ps else p :: updateFirstBy pred f ps

/-- Mongoose `Profile.findOneAndUpdate({ user }, { $set: fields },
{ new: true })`: updates the first document matching the filter and returns
the post-update document; the write is rejected with a duplicate-key error
when the new `username` equals that of a different document. -/
def profileFindOneAndUpdate (db : DB) (userId : Nat) (body : ProfileReq) :
    Except StoreError (Option StoredProfile × DB) :=
  match profileFindOneByUser db userId with
  | none => .ok (none, db)
  | some p =>
    if db.profiles.any (fun q => q.username = body.username ∧ q.id ≠ p.id)
    then
      .error .duplicateKey
    else
      let newProfiles :=
        updateFirstBy (fun q => q.user = userId)
          (setProfileFields userId body) db.profiles
      .ok (some (setProfileFields userId body p),
           { db with profiles := newProfiles })

/-- The document that `new Profile(profileFields)` constructs on the
create leg of the upsert: a fresh id, the authenticated user reference,
the three submitted fields, and the schema-default creation timestamp. -/
def newProfileDoc (db : DB) (userId : Nat) (body : ProfileReq)
    (now : Nat) : StoredProfile :=
  ⟨db.freshProfileId, userId, body.firstName, body.lastName,
   body.username, now⟩

/-- The store state after the create leg of the upsert inserts the new
document. -/
def dbAfterCreate (db : DB) (userId : Nat) (body : ProfileReq)
    (now : Nat) : DB :=
  ⟨db.users, db.profiles ++ [newProfileDoc db userId body now],
   db.freshProfileId + 1⟩

/-- POST `/api/profile` (upsert, after the auth middleware attached
`userId`): validate the three fields, check the user is registered, then
update the existing Profile or create a new one with a fresh id and the
creation timestamp `now` (the schema default `Date.now`).  A storage-level
duplicate-key rejection lands in the catch block, which answers a generic
500 `Server Error`. -/
def profilePostHandler (db : DB) (userId : Nat) (body : ProfileReq)
    (now : Nat) : Resp × DB :=
  let errs := profileValidationErrors body
  if errs ≠ [] then
    (⟨400, .errors errs⟩, db)
  else
    match userFindById db userId with
    | none => (⟨400, .errors ["User not registered"]⟩, db)
    | some _ =>
      match profileFindOneByUser db userId with
      | some _ =>
        match profileFindOneAndUpdate db userId body with
        | .error _ => (⟨500, .text "Server Error"⟩, db)
        | .ok (updated, db2) => (⟨200, .profileDoc updated⟩, db2)
      | none =>
        let newP := newProfileDoc db userId body now
        match profileSave db newP with
        | .error _ => (⟨500, .text "Server Error"⟩, db)
        | .ok db2 => (⟨200, .profileDoc (some newP)⟩, db2)

/-- GET `/api/profile/me` (fetch own profile): 400 with an error body when
the authenticated user has no Profile yet, otherwise the populated
Profile. -/
def profileGetMeHandler (db : DB) (userId : Nat) : Resp :=
  match profileFindOneByUser db userId with
  | none => ⟨400, .errors ["There is no profile for this user"]⟩
  | some p => ⟨200, .populatedDoc (populateUser db p)⟩

/-- GET `/api/profile` (list all profiles, public): every Profile with its
linked User populated down to `avatar` and `email`. -/
def profileGetAllHandler (db : DB) : Resp :=
  ⟨200, .populatedDocs (db.profiles.map (populateUser db))⟩

/-- Whether a character is a hexadecimal digit. -/
def isHexDigitChar (c : Char) : Bool :=
  c.isDigit || (Char.ofNat 97 ≤ c && c ≤ Char.ofNat 102) ||
  (Char.ofNat 65 ≤ c && c ≤ Char.ofNat 70)

/-- Whether a string is a well-formed MongoDB ObjectId: exactly 24
hexadecimal characters. -/
def isValidObjectId (s : String) : Bool :=
  s.length = 24 && s.data.all isHexDigitChar

/-- Numeric value of a hexadecimal digit character. -/
def hexDigitVal (c : Char) : Nat :=
  if c.isDigit then c.toNat - 48
  else if Char.ofNat 97 ≤ c && c ≤ Char.ofNat 102 then c.toNat - 97 + 10
  else c.toNat - 65 + 10

/-- Mongoose's cast of a route-parameter string to an ObjectId: fails (a
`CastError` of kind `ObjectId`) on a malformed string, otherwise yields the
id value. -/
def castObjectId (s : String) : Option Nat :=
  if isValidObjectId s then
    some (s.data.foldl (fun acc c => acc * 16 + hexDigitVal c) 0)
  else
    none

/-- GET `/api/profile/user/:userId` (public fetch by user id): a malformed
id makes the query throw a `CastError` whose `kind` is `"ObjectId"`, which
the catch block maps to the same 400 `Profile not found` body as an id that
matches no Profile. -/
def profileGetByUserIdHandler (db : DB) (param : String) : Resp :=
  match castObjectId param with
  | none => ⟨400, .msg "Profile not found"⟩
  | some uid =>
    match profileFindOneByUser db uid with
    | none => ⟨400, .msg "Profile not found"⟩
    | some p => ⟨200, .populatedDoc (populateUser db p)⟩

/-- DELETE `/api/profile` (after the auth middleware attached `userId`):
`Profile.findOneAndRemove({ user })` then
`User.findOneAndRemove({ _id })`, each removing the first matching
document if any, then an unconditional 200 `User removed`. -/
def profileDeleteHandler (db : DB) (userId : Nat) : Resp × DB :=
  let remainingProfiles := db.profiles.eraseP (fun p => p.user = userId)
  let db1 := { db with profiles := remainingProfiles }
  let remainingUsers := db1.users.eraseP (fun u => u.id = userId)
  let db2 := { db1 with users := remainingUsers }
  (⟨200, .msg "User removed"⟩, db2)

/-! ## Helper lemmas -/

/-- A `find?` that fails on every element of a prefix continues in the
suffix. -/
theorem find?_append_of_forall_not {α : Type} (pred : α → Bool)
    (l1 l2 : List α) (h : ∀ a ∈ l1, pred a = false) :
    (l1 ++ l2).find? pred = l2.find? pred := by
  induction l1 with
  | nil => rfl
  | cons x xs ih =>
    have hx := h x (List.mem_cons_self x xs)
    simpa [List.find?_cons, hx] using
      ih (fun a ha => h a (List.mem_cons_of_mem x ha))

/-- `updateFirstBy` skips a prefix on which the filter fails
everywhere. -/
theorem updateFirstBy_append_of_forall_not (pred : StoredProfile → Bool)
    (f : StoredProfile → StoredProfile) (l1 l2 : List StoredProfile)
    (h : ∀ a ∈ l1, pred a = false) :
    updateFirstBy pred f (l1 ++ l2) = l1 ++ updateFirstBy pred f l2 := by
  induction l1 with
  | nil => rfl
  | cons x xs ih =>
    have hx := h x (List.mem_cons_self x xs)
    simp [updateFirstBy, hx, ih (fun a ha => h a (List.mem_cons_of_mem x ha))]

/-- Erasing the only element satisfying a filter leaves a list on which
the filter fails everywhere. -/
theorem countP_eraseP_eq_zero {α : Type} (pred : α → Bool) (l : List α)
    (h : l.countP pred ≤ 1) : (l.eraseP pred).countP pred = 0 := by
  induction l with
  | nil => rfl
  | cons x xs ih =>
    by_cases hx : pred x = true
    · have hxs : xs.countP pred = 0 := by
        have h' := h
        simp [List.countP_cons, hx] at h'
        simpa using h'
      simp [List.eraseP_cons, hx, hxs]
    · have hx' : pred x = false := by simpa using hx
      have h' : xs.countP pred ≤ 1 := by
        simpa [List.countP_cons, hx'] using h
      simp [List.eraseP_cons, hx', List.countP_cons, ih h']

/-- A list whose `countP` is zero is untouched by `eraseP`. -/
theorem eraseP_eq_self_of_countP_zero {α : Type} (pred : α → Bool)
    (l : List α) (h : l.countP pred = 0) : l.eraseP pred = l := by
  apply List.eraseP_of_forall_not
  intro a ha
  have := (List.countP_eq_zero).mp h a ha
  simpa using this

/-- A list whose `countP` is zero has no `find?` hit. -/
theorem find?_eq_none_of_countP_zero {α : Type} (pred : α → Bool)
    (l : List α) (h : l.countP pred = 0) : l.find? pred = none := by
  rw [List.find?_eq_none]
  intro a ha
  have := (List.countP_eq_zero).mp h a ha
  simpa using this

/-! ## C1: login with the correct password yields a token whose verified
claim is the user's id -/

/-- C1: for every stored User, a login request carrying that user's email
(in valid email shape) whose bcrypt comparison against the stored hash
succeeds is answered with a 200 response carrying a signed token, and
verifying that token with the configured secret returns the claim
`{ userId = user.id }`. -/
theorem login_correct_password_yields_token_of_userId (libs : Libs)
    (cfg : Config) (db : DB) (req : LoginReq) (user : StoredUser)
    (hvalid : libs.isEmail req.email = true)
    (hfind : userFindOneByEmail db req.email = some user)
    (hmatch : libs.bcryptCompare req.password user.password = true) :
    ∃ t : Token, authPostHandler libs cfg db req = ⟨200, .token t⟩ ∧
      jwtVerify t cfg.jwtSecret = some ⟨user.id⟩ := by
  refine ⟨jwtSign ⟨user.id⟩ cfg.jwtSecret cfg.jwtExpiration, ?_, ?_⟩
  · simp [authPostHandler, hvalid, hfind, hmatch]
  · simp [jwtVerify, jwtSign]

/-- Witness for C1 at a concrete store, user and request. -/
theorem login_correct_password_yields_token_of_userId_witness :
    ∃ t : Token,
      authPostHandler ⟨fun p h => h == "H" ++ p, fun _ => true⟩ ⟨"s", 3600⟩
        ⟨[⟨1, "a@x.com", "Hpw", "av"⟩], [], 0⟩ ⟨"a@x.com", "pw"⟩
        = ⟨200, .token t⟩ ∧
      jwtVerify t "s" = some ⟨1⟩ :=
  login_correct_password_yields_token_of_userId
    ⟨fun p h => h == "H" ++ p, fun _ => true⟩ ⟨"s", 3600⟩
    ⟨[⟨1, "a@x.com", "Hpw", "av"⟩], [], 0⟩ ⟨"a@x.com", "pw"⟩
    ⟨1, "a@x.com", "Hpw", "av"⟩ rfl (by decide) (by decide)

/-! ## C2: the two login failure causes are indistinguishable -/

/-- C2: a login whose email matches no stored user and a login whose email
matches a user but whose bcrypt comparison fails are answered with the
identical response: status 400 with the single `Invalid Credentials` error
message. -/
theorem login_failures_indistinguishable (libs : Libs) (cfg : Config)
    (db : DB) (req1 req2 : LoginReq) (user : StoredUser)
    (hv1 : libs.isEmail req1.email = true)
    (hv2 : libs.isEmail req2.email = true)
    (hnone : userFindOneByEmail db req1.email = none)
    (hsome : userFindOneByEmail db req2.email = some user)
    (hmiss : libs.bcryptCompare req2.password user.password = false) :
    authPostHandler libs cfg db req1 = authPostHandler libs cfg db req2 ∧
    authPostHandler libs cfg db req1
      = ⟨400, .errors ["Invalid Credentials"]⟩ := by
  constructor
  · simp [authPostHandler, hv1, hv2, hnone, hsome, hmiss]
  · simp [authPostHandler, hv1, hnone]

/-- Witness for C2: a store with one user, one request with an unknown
email and one with a wrong password. -/
theorem login_failures_indistinguishable_witness :
    authPostHandler ⟨fun p h => h == "H" ++ p, fun _ => true⟩ ⟨"s", 3600⟩
        ⟨[⟨1, "a@x.com", "Hpw", "av"⟩], [], 0⟩ ⟨"b@x.com", "pw"⟩
      = authPostHandler ⟨fun p h => h == "H" ++ p, fun _ => true⟩ ⟨"s", 3600⟩
        ⟨[⟨1, "a@x.com", "Hpw", "av"⟩], [], 0⟩ ⟨"a@x.com", "wrong"⟩ ∧
    authPostHandler ⟨fun p h => h == "H" ++ p, fun _ => true⟩ ⟨"s", 3600⟩
        ⟨[⟨1, "a@x.com", "Hpw", "av"⟩], [], 0⟩ ⟨"b@x.com", "pw"⟩
      = ⟨400, .errors ["Invalid Credentials"]⟩ :=
  login_failures_indistinguishable
    ⟨fun p h => h == "H" ++ p, fun _ => true⟩ ⟨"s", 3600⟩
    ⟨[⟨1, "a@x.com", "Hpw", "av"⟩], [], 0⟩ ⟨"b@x.com", "pw"⟩
    ⟨"a@x.com", "wrong"⟩ ⟨1, "a@x.com", "Hpw", "av"⟩
    rfl rfl (by decide) (by decide) (by decide)

/-! ## C3: identity fetch for a userId that no longer resolves -/

/-- C3 counterexample: on an empty store, the identity fetch for userId 7
does not fail with NotFound — it answers HTTP 200 (a success response)
whose body is the JSON serialization of `null`. -/
theorem identity_fetch_missing_user_counterexample :
    authGetHandler ⟨[], [], 0⟩ 7 = ⟨200, .userDoc none⟩ ∧
    (authGetHandler ⟨[], [], 0⟩ 7).status = 200 := by
  constructor <;> rfl

/-- C3 amended: for every store and every attached userId that resolves to
no stored User, the identity fetch returns a 200 success response with a
null body (the handler reaches `res.json(user)` with a null `user`), not a
NotFound failure. -/
theorem identity_fetch_missing_user_returns_null (db : DB) (userId : Nat)
    (h : userFindById db userId = none) :
    authGetHandler db userId = ⟨200, .userDoc none⟩ := by
  simp [authGetHandler, h]

/-- Witness for the amended C3 on the empty store. -/
theorem identity_fetch_missing_user_returns_null_witness :
    authGetHandler ⟨[], [], 0⟩ 3 = ⟨200, .userDoc none⟩ :=
  identity_fetch_missing_user_returns_null ⟨[], [], 0⟩ 3 rfl

/-! ## C7: malformed and unmatched user ids in the public fetch -/

/-- C7: the public fetch by user id answers the same 400
`Profile not found` body both when the route parameter is not a
well-formed ObjectId (the cast failure is caught, not surfaced as a 500)
and when it is well-formed but no Profile references it. -/
theorem fetch_by_userid_malformed_eq_absent (db : DB) (param : String)
    (h : castObjectId param = none ∨
      ∃ uid, castObjectId param = some uid ∧
        profileFindOneByUser db uid = none) :
    profileGetByUserIdHandler db param = ⟨400, .msg "Profile not found"⟩ := by
  rcases h with hc | ⟨uid, hc, hp⟩
  · simp [profileGetByUserIdHandler, hc]
  · simp [profileGetByUserIdHandler, hc, hp]

/-- Witness for C7: the malformed parameter `"abc"` against the empty
store. -/
theorem fetch_by_userid_malformed_eq_absent_witness :
    profileGetByUserIdHandler ⟨[], [], 0⟩ "abc"
      = ⟨400, .msg "Profile not found"⟩ :=
  fetch_by_userid_malformed_eq_absent ⟨[], [], 0⟩ "abc"
    (Or.inl (by decide))

/-! ## C8: delete removes both the Profile and the User -/

/-- C8: as long as the store holds at most one Profile referencing the
authenticated user and at most one User with that id (the documented
one-per-user invariants), the delete operation removes both: afterwards
the own-profile fetch finds no Profile and the user id no longer resolves
in the users collection, and the delete itself answers 200
`User removed`. -/
theorem delete_removes_profile_and_user (db : DB) (userId : Nat)
    (hp : db.profiles.countP (fun p => p.user = userId) ≤ 1)
    (hu : db.users.countP (fun u => u.id = userId) ≤ 1) :
    (profileDeleteHandler db userId).1 = ⟨200, .msg "User removed"⟩ ∧
    profileGetMeHandler (profileDeleteHandler db userId).2 userId
      = ⟨400, .errors ["There is no profile for this user"]⟩ ∧
    userFindById (profileDeleteHandler db userId).2 userId = none := by
  refine ⟨rfl, ?_, ?_⟩
  · have h0 := countP_eraseP_eq_zero
      (fun (p : StoredProfile) => p.user = userId) db.profiles hp
    have hfind := find?_eq_none_of_countP_zero
      (fun (p : StoredProfile) => p.user = userId) _ h0
    simp [profileGetMeHandler, profileDeleteHandler,
      profileFindOneByUser, hfind]
  · have h0 := countP_eraseP_eq_zero
      (fun (u : StoredUser) => u.id = userId) db.users hu
    have hfind := find?_eq_none_of_countP_zero
      (fun (u : StoredUser) => u.id = userId) _ h0
    simp [profileDeleteHandler, userFindById, hfind]

/-- Witness for C8: a store with one user and its profile. -/
theorem delete_removes_profile_and_user_witness :
    (profileDeleteHandler ⟨[⟨1, "a@x.com", "Hpw", "av"⟩],
        [⟨10, 1, "F", "L", "fl", 0⟩], 11⟩ 1).1
      = ⟨200, .msg "User removed"⟩ ∧
    profileGetMeHandler (profileDeleteHandler ⟨[⟨1, "a@x.com", "Hpw", "av"⟩],
        [⟨10, 1, "F", "L", "fl", 0⟩], 11⟩ 1).2 1
      = ⟨400, .errors ["There is no profile for this user"]⟩ ∧
    userFindById (profileDeleteHandler ⟨[⟨1, "a@x.com", "Hpw", "av"⟩],
        [⟨10, 1, "F", "L", "fl", 0⟩], 11⟩ 1).2 1 = none :=
  delete_removes_profile_and_user ⟨[⟨1, "a@x.com", "Hpw", "av"⟩],
    [⟨10, 1, "F", "L", "fl", 0⟩], 11⟩ 1 (by decide) (by decide)

/-! ## C10: delete is total and idempotent at the interface -/

/-- C10: the delete operation answers 200 `User removed` on every store
and every authenticated userId (also when no Profile or User exists), and,
on a store holding at most one Profile referencing the user and at most
one User with that id, running it twice gives the same response and the
same final state as running it once. -/
theorem delete_total_and_idempotent (db : DB) (userId : Nat)
    (hp : db.profiles.countP (fun p => p.user = userId) ≤ 1)
    (hu : db.users.countP (fun u => u.id = userId) ≤ 1) :
    (profileDeleteHandler db userId).1 = ⟨200, .msg "User removed"⟩ ∧
    profileDeleteHandler (profileDeleteHandler db userId).2 userId
      = profileDeleteHandler db userId := by
  refine ⟨rfl, ?_⟩
  have hp0 := countP_eraseP_eq_zero
    (fun (p : StoredProfile) => p.user = userId) db.profiles hp
  have hu0 := countP_eraseP_eq_zero
    (fun (u : StoredUser) => u.id = userId) db.users hu
  simp [profileDeleteHandler, eraseP_eq_self_of_countP_zero _ _ hp0,
    eraseP_eq_self_of_countP_zero _ _ hu0]

/-- Witness for C10 on a store that has neither a Profile nor a User for
the authenticated id. -/
theorem delete_total_and_idempotent_witness :
    (profileDeleteHandler ⟨[⟨1, "a@x.com", "Hpw", "av"⟩], [], 5⟩ 2).1
      = ⟨200, .msg "User removed"⟩ ∧
    profileDeleteHandler
        (profileDeleteHandler ⟨[⟨1, "a@x.com", "Hpw", "av"⟩], [], 5⟩ 2).2 2
      = profileDeleteHandler ⟨[⟨1, "a@x.com", "Hpw", "av"⟩], [], 5⟩ 2 :=
  delete_total_and_idempotent ⟨[⟨1, "a@x.com", "Hpw", "av"⟩], [], 5⟩ 2
    (by decide) (by decide)

/-! ## C4: username collision with a different user's Profile -/

/-- C4 counterexample: user 2 is registered and has no Profile; user 1's
Profile already holds the username `taken`.  User 2's upsert with username
`taken` is answered with the generic 500 `Server Error` response — not a
Conflict/validation error — while the store is left unchanged. -/
theorem username_conflict_counterexample :
    profilePostHandler
        ⟨[⟨1, "a@x.com", "h1", "av"⟩, ⟨2, "b@x.com", "h2", "av"⟩],
         [⟨10, 1, "F", "L", "taken", 0⟩], 11⟩ 2 ⟨"G", "M", "taken"⟩ 5
      = (⟨500, .text "Server Error"⟩,
         ⟨[⟨1, "a@x.com", "h1", "av"⟩, ⟨2, "b@x.com", "h2", "av"⟩],
          [⟨10, 1, "F", "L", "taken", 0⟩], 11⟩) := by
  decide

/-- C4 amended: when a registered user upserts a username already held by
a different user's Profile (document ids being unique), the storage-level
unique index rejects the write — the store is unchanged, so the first
user's Profile is unaffected — but the rejection surfaces as the generic
500 `Server Error` response, not as a Conflict/validation error. -/
theorem username_conflict_server_error_store_unchanged (db : DB)
    (userId : Nat) (body : ProfileReq) (now : Nat) (u : StoredUser)
    (q : StoredProfile)
    (hval : profileValidationErrors body = [])
    (huser : userFindById db userId = some u)
    (hq : q ∈ db.profiles) (hquser : ¬ q.user = userId)
    (hqname : q.username = body.username)
    (hids : ∀ p1 ∈ db.profiles, ∀ p2 ∈ db.profiles, p1.id = p2.id →
      p1 = p2) :
    profilePostHandler db userId body now
      = (⟨500, .text "Server Error"⟩, db) := by
  cases hprof : profileFindOneByUser db userId with
  | none =>
    have hsave : profileSave db (newProfileDoc db userId body now)
        = .error .duplicateKey := by
      unfold profileSave
      rw [if_pos (List.any_eq_true.mpr
        ⟨q, hq, by simp [newProfileDoc, hqname]⟩)]
    simp [profilePostHandler, hval, huser, hprof, hsave]
  | some p =>
    have hpuser : p.user = userId := by
      have := List.find?_some hprof
      simpa using this
    have hpm : p ∈ db.profiles := List.mem_of_find?_eq_some hprof
    have hne : ¬ q.id = p.id := by
      intro hid
      exact hquser (by rw [hids q hq p hpm hid]; exact hpuser)
    have hupd : profileFindOneAndUpdate db userId body
        = .error .duplicateKey := by
      unfold profileFindOneAndUpdate
      simp only [hprof]
      rw [if_pos (List.any_eq_true.mpr ⟨q, hq, by simp [hqname, hne]⟩)]
    simp [profilePostHandler, hval, huser, hprof, hupd]

/-- Witness for the amended C4, at the counterexample's store. -/
theorem username_conflict_server_error_store_unchanged_witness :
    profilePostHandler
        ⟨[⟨1, "a@x.com", "h1", "av"⟩, ⟨2, "b@x.com", "h2", "av"⟩],
         [⟨10, 1, "F", "L", "taken", 0⟩], 11⟩ 2 ⟨"G", "M", "taken"⟩ 5
      = (⟨500, .text "Server Error"⟩,
         ⟨[⟨1, "a@x.com", "h1", "av"⟩, ⟨2, "b@x.com", "h2", "av"⟩],
          [⟨10, 1, "F", "L", "taken", 0⟩], 11⟩) :=
  username_conflict_server_error_store_unchanged
    ⟨[⟨1, "a@x.com", "h1", "av"⟩, ⟨2, "b@x.com", "h2", "av"⟩],
     [⟨10, 1, "F", "L", "taken", 0⟩], 11⟩ 2 ⟨"G", "M", "taken"⟩ 5
    ⟨2, "b@x.com", "h2", "av"⟩ ⟨10, 1, "F", "L", "taken", 0⟩
    rfl (by decide) (by decide) (by decide) rfl (by decide)

/-! ## C5: the update leg of the upsert writes exactly the three name
fields -/

/-- Splitting view of `updateFirstBy` around the first hit of the
filter. -/
theorem updateFirstBy_split (pred : StoredProfile → Bool)
    (f : StoredProfile → StoredProfile) (l : List StoredProfile)
    (p : StoredProfile) (h : l.find? pred = some p) :
    ∃ l1 l2, l = l1 ++ p :: l2 ∧
      updateFirstBy pred f l = l1 ++ f p :: l2 ∧
      ∀ r ∈ l1, pred r = false := by
  induction l with
  | nil => simp at h
  | cons x xs ih =>
    by_cases hx : pred x = true
    · rw [List.find?_cons_of_pos xs hx] at h
      obtain rfl : x = p := by injection h
      exact ⟨[], xs, rfl, by simp [updateFirstBy, hx], by simp⟩
    · rw [List.find?_cons_of_neg xs (by simpa using hx)] at h
      obtain ⟨l1, l2, hl, hu, hall⟩ := ih h
      refine ⟨x :: l1, l2, by simp [hl], ?_, ?_⟩
      · simp [updateFirstBy, hx, hu]
      · intro r hr
        rcases List.mem_cons.mp hr with rfl | hr'
        · simpa using hx
        · exact hall r hr'

/-- C5: for an authenticated user with an existing Profile, a valid,
conflict-free upsert answers 200 with the post-update record, which keeps
the Profile's id, `user` reference and creation timestamp and carries
exactly the submitted `firstName`, `lastName` and `username`; in the
store, exactly that one document is replaced and every other Profile and
all Users are untouched. -/
theorem upsert_update_writes_exactly_name_fields (db : DB) (userId : Nat)
    (body : ProfileReq) (now : Nat) (u : StoredUser) (p : StoredProfile)
    (hval : profileValidationErrors body = [])
    (huser : userFindById db userId = some u)
    (hprof : profileFindOneByUser db userId = some p)
    (hnodup : db.profiles.any
      (fun q => q.username = body.username ∧ q.id ≠ p.id) = false) :
    ∃ p2 db2,
      profilePostHandler db userId body now
        = (⟨200, .profileDoc (some p2)⟩, db2) ∧
      p2.id = p.id ∧ p2.user = p.user ∧ p2.date = p.date ∧
      p2.firstName = body.firstName ∧ p2.lastName = body.lastName ∧
      p2.username = body.username ∧
      db2.users = db.users ∧
      (∃ l1 l2, db.profiles = l1 ++ p :: l2 ∧
        db2.profiles = l1 ++ p2 :: l2) := by
  have hpuser : p.user = userId := by
    have := List.find?_some hprof
    simpa using this
  refine ⟨setProfileFields userId body p,
    ⟨db.users,
     updateFirstBy (fun q => q.user = userId) (setProfileFields userId body)
       db.profiles,
     db.freshProfileId⟩, ?_, ?_, ?_, ?_, ?_, ?_, ?_, rfl, ?_⟩
  · have hupd : profileFindOneAndUpdate db userId body
        = .ok (some (setProfileFields userId body p),
               ⟨db.users,
                updateFirstBy (fun q => q.user = userId)
                  (setProfileFields userId body) db.profiles,
                db.freshProfileId⟩) := by
      unfold profileFindOneAndUpdate
      simp only [hprof]
      rw [if_neg (by simp only [hnodup]; exact Bool.false_ne_true)]
    simp [profilePostHandler, hval, huser, hprof, hupd]
  · rfl
  · simp [setProfileFields, hpuser]
  · rfl
  · rfl
  · rfl
  · rfl
  · obtain ⟨l1, l2, hl, hu2, _⟩ := updateFirstBy_split
      (fun q => q.user = userId) (setProfileFields userId body)
      db.profiles p hprof
    exact ⟨l1, l2, hl, hu2⟩

/-- Witness for C5: updating the single existing profile of user 1. -/
theorem upsert_update_writes_exactly_name_fields_witness :
    ∃ p2 db2,
      profilePostHandler ⟨[⟨1, "a@x.com", "h1", "av"⟩],
          [⟨10, 1, "F", "L", "fl", 42⟩], 11⟩ 1 ⟨"G", "M", "gm"⟩ 99
        = (⟨200, .profileDoc (some p2)⟩, db2) ∧
      p2.id = (⟨10, 1, "F", "L", "fl", 42⟩ : StoredProfile).id ∧
      p2.user = (⟨10, 1, "F", "L", "fl", 42⟩ : StoredProfile).user ∧
      p2.date = (⟨10, 1, "F", "L", "fl", 42⟩ : StoredProfile).date ∧
      p2.firstName = "G" ∧ p2.lastName = "M" ∧ p2.username = "gm" ∧
      db2.users = [⟨1, "a@x.com", "h1", "av"⟩] ∧
      (∃ l1 l2,
        [(⟨10, 1, "F", "L", "fl", 42⟩ : StoredProfile)]
          = l1 ++ (⟨10, 1, "F", "L", "fl", 42⟩ : StoredProfile) :: l2 ∧
        db2.profiles = l1 ++ p2 :: l2) :=
  upsert_update_writes_exactly_name_fields
    ⟨[⟨1, "a@x.com", "h1", "av"⟩], [⟨10, 1, "F", "L", "fl", 42⟩], 11⟩ 1
    ⟨"G", "M", "gm"⟩ 99 ⟨1, "a@x.com", "h1", "av"⟩
    ⟨10, 1, "F", "L", "fl", 42⟩ rfl (by decide) (by decide) (by decide)


/-! ## C6: the upsert is idempotent on identical input -/

/-- C6: for a registered user with no Profile yet, a valid upsert whose
username is not in use creates a Profile; repeating the upsert with the
same three fields takes the update leg, returns a Profile with the same id
(indeed, the identical document), and leaves the store exactly as it was
after the first call. -/
theorem upsert_create_then_update_idempotent (db : DB) (userId : Nat)
    (body : ProfileReq) (now1 now2 : Nat) (u : StoredUser)
    (hval : profileValidationErrors body = [])
    (huser : userFindById db userId = some u)
    (hnoprof : profileFindOneByUser db userId = none)
    (hfresh : db.profiles.any (fun q => q.username = body.username)
      = false) :
    ∃ p1 p2,
      (profilePostHandler db userId body now1).1
        = ⟨200, .profileDoc (some p1)⟩ ∧
      (profilePostHandler (profilePostHandler db userId body now1).2
        userId body now2).1 = ⟨200, .profileDoc (some p2)⟩ ∧
      p2.id = p1.id ∧
      (profilePostHandler (profilePostHandler db userId body now1).2
        userId body now2).2 = (profilePostHandler db userId body now1).2
      := by
  have hall : ∀ a ∈ db.profiles,
      (fun (q : StoredProfile) => decide (q.user = userId)) a = false := by
    intro a ha
    have := List.find?_eq_none.mp hnoprof a ha
    simpa using this
  have hcond : db.profiles.any (fun q => q.username =
      (newProfileDoc db userId body now1).username) = false := hfresh
  have hsave : profileSave db (newProfileDoc db userId body now1)
      = .ok (dbAfterCreate db userId body now1) := by
    unfold profileSave
    rw [if_neg (by simp only [hcond]; exact Bool.false_ne_true)]
    rfl
  have h1 : profilePostHandler db userId body now1
      = (⟨200, .profileDoc (some (newProfileDoc db userId body now1))⟩,
         dbAfterCreate db userId body now1) := by
    simp [profilePostHandler, hval, huser, hnoprof, hsave]
  have huser1 : userFindById (dbAfterCreate db userId body now1) userId
      = some u := huser
  have hfind1 : profileFindOneByUser (dbAfterCreate db userId body now1)
      userId = some (newProfileDoc db userId body now1) := by
    show (db.profiles ++ [newProfileDoc db userId body now1]).find?
      (fun p => p.user = userId)
      = some (newProfileDoc db userId body now1)
    rw [find?_append_of_forall_not _ _ _ hall]
    simp [newProfileDoc]
  have hconf : (dbAfterCreate db userId body now1).profiles.any
      (fun q => q.username = body.username ∧
        q.id ≠ (newProfileDoc db userId body now1).id) = false := by
    show (db.profiles ++ [newProfileDoc db userId body now1]).any
      (fun q => q.username = body.username ∧
        q.id ≠ (newProfileDoc db userId body now1).id) = false
    rw [List.any_append]
    have hleft : db.profiles.any
        (fun q => q.username = body.username ∧
          q.id ≠ (newProfileDoc db userId body now1).id) = false := by
      rw [List.any_eq_false]
      intro x hx
      have hxu := List.any_eq_false.mp hfresh x hx
      simp at hxu ⊢
      intro hxe
      exact absurd hxe hxu
    have hright : [newProfileDoc db userId body now1].any
        (fun q => q.username = body.username ∧
          q.id ≠ (newProfileDoc db userId body now1).id) = false := by
      simp
    rw [hleft, hright]
    rfl
  have hupdList : updateFirstBy (fun q => q.user = userId)
      (setProfileFields userId body)
      (dbAfterCreate db userId body now1).profiles
      = (dbAfterCreate db userId body now1).profiles := by
    show updateFirstBy (fun q => q.user = userId)
      (setProfileFields userId body)
      (db.profiles ++ [newProfileDoc db userId body now1])
      = db.profiles ++ [newProfileDoc db userId body now1]
    rw [updateFirstBy_append_of_forall_not _ _ _ _ hall]
    simp [updateFirstBy, setProfileFields, newProfileDoc]
  have hu2 : profileFindOneAndUpdate (dbAfterCreate db userId body now1)
      userId body
      = .ok (some (newProfileDoc db userId body now1),
         dbAfterCreate db userId body now1) := by
    unfold profileFindOneAndUpdate
    simp only [hfind1]
    rw [if_neg (by simp only [hconf]; exact Bool.false_ne_true)]
    simp only [hupdList]
    rfl
  have h2 : profilePostHandler (dbAfterCreate db userId body now1)
      userId body now2
      = (⟨200, .profileDoc (some (newProfileDoc db userId body now1))⟩,
         dbAfterCreate db userId body now1) := by
    simp [profilePostHandler, hval, huser1, hfind1, hu2]
  refine ⟨newProfileDoc db userId body now1,
    newProfileDoc db userId body now1, ?_, ?_, rfl, ?_⟩
  · simp [h1]
  · simp [h1, h2]
  · simp [h1, h2]

/-- Witness for C6: a fresh upsert for user 1 on a store holding only that
user, repeated once. -/
theorem upsert_create_then_update_idempotent_witness :
    ∃ p1 p2,
      (profilePostHandler ⟨[⟨1, "a@x.com", "h1", "av"⟩], [], 10⟩ 1
        ⟨"F", "L", "fl"⟩ 42).1 = ⟨200, .profileDoc (some p1)⟩ ∧
      (profilePostHandler
        (profilePostHandler ⟨[⟨1, "a@x.com", "h1", "av"⟩], [], 10⟩ 1
          ⟨"F", "L", "fl"⟩ 42).2 1 ⟨"F", "L", "fl"⟩ 43).1
        = ⟨200, .profileDoc (some p2)⟩ ∧
      p2.id = p1.id ∧
      (profilePostHandler
        (profilePostHandler ⟨[⟨1, "a@x.com", "h1", "av"⟩], [], 10⟩ 1
          ⟨"F", "L", "fl"⟩ 42).2 1 ⟨"F", "L", "fl"⟩ 43).2
        = (profilePostHandler ⟨[⟨1, "a@x.com", "h1", "av"⟩], [], 10⟩ 1
            ⟨"F", "L", "fl"⟩ 42).2 :=
  upsert_create_then_update_idempotent ⟨[⟨1, "a@x.com", "h1", "av"⟩], [],
    10⟩ 1 ⟨"F", "L", "fl"⟩ 42 43 ⟨1, "a@x.com", "h1", "av"⟩
    rfl (by decide) (by decide) (by decide)

/-! ## C9: no success response depends on the stored password hashes -/

/-- Two stored Users agreeing on every field except possibly the password
hash. -/
def samePublicUser (u v : StoredUser) : Prop :=
  u.id = v.id ∧ u.email = v.email ∧ u.avatar = v.avatar

/-- Two stores agreeing on everything except possibly the password hashes
of their users. -/
def agreeExceptPasswordHashes (db1 db2 : DB) : Prop :=
  List.Forall₂ samePublicUser db1.users db2.users ∧
  db1.profiles = db2.profiles

/-- Any projection of a User that reads only the non-password fields gives
the same `find?`-by-id image on password-wise different user
collections. -/
theorem find?_byId_map_congr {β : Type} (f : StoredUser → β)
    (hf : ∀ u v, samePublicUser u v → f u = f v)
    (l1 l2 : List StoredUser)
    (h : List.Forall₂ samePublicUser l1 l2) (i : Nat) :
    (l1.find? (fun u => u.id = i)).map f
      = (l2.find? (fun u => u.id = i)).map f := by
  induction h with
  | nil => rfl
  | @cons a b t1 t2 hab hrest ih =>
    by_cases hid : a.id = i
    · have hbid : b.id = i := by rw [← hab.1]; exact hid
      rw [List.find?_cons_of_pos t1 (by simpa using hid),
          List.find?_cons_of_pos t2 (by simpa using hbid)]
      simp [hf a b hab]
    · have hbid : ¬ b.id = i := by rw [← hab.1]; exact hid
      rw [List.find?_cons_of_neg t1 (by simpa using hid),
          List.find?_cons_of_neg t2 (by simpa using hbid)]
      exact ih

/-- Populating a Profile's user reference reads only non-password
fields. -/
theorem populateUser_congr (db1 db2 : DB) (p : StoredProfile)
    (h : List.Forall₂ samePublicUser db1.users db2.users) :
    populateUser db1 p = populateUser db2 p := by
  unfold populateUser userFindById
  rw [find?_byId_map_congr
    (fun u => (⟨u.id, u.avatar, u.email⟩ : PopulatedUser))
    (fun u v huv => by
      obtain ⟨h1, h2, h3⟩ := huv
      simp [h1, h2, h3])
    db1.users db2.users h p.user]

/-- C9: on two stores that differ only in the stored password hashes, the
identity fetch and all three profile reads produce identical responses —
so no success response of these operations can contain (or depend on) a
stored password hash; the User data they expose is limited to the
non-password projections `selectMinusPassword` and the populated
avatar/email view. -/
theorem reads_independent_of_password_hashes (db1 db2 : DB)
    (userId : Nat) (param : String)
    (h : agreeExceptPasswordHashes db1 db2) :
    authGetHandler db1 userId = authGetHandler db2 userId ∧
    profileGetMeHandler db1 userId = profileGetMeHandler db2 userId ∧
    profileGetAllHandler db1 = profileGetAllHandler db2 ∧
    profileGetByUserIdHandler db1 param
      = profileGetByUserIdHandler db2 param := by
  obtain ⟨hu, hp⟩ := h
  refine ⟨?_, ?_, ?_, ?_⟩
  · unfold authGetHandler userFindById
    rw [find?_byId_map_congr selectMinusPassword
      (fun u v huv => by
        obtain ⟨h1, h2, h3⟩ := huv
        simp [selectMinusPassword, h1, h2, h3])
      db1.users db2.users hu userId]
  · have harm : ∀ o : Option StoredProfile,
        (match o with
         | none =>
           (⟨400, .errors ["There is no profile for this user"]⟩ : Resp)
         | some p => ⟨200, .populatedDoc (populateUser db1 p)⟩)
        = (match o with
         | none =>
           (⟨400, .errors ["There is no profile for this user"]⟩ : Resp)
         | some p => ⟨200, .populatedDoc (populateUser db2 p)⟩) := by
      intro o
      cases o with
      | none => rfl
      | some p =>
        show (⟨200, .populatedDoc (populateUser db1 p)⟩ : Resp)
          = ⟨200, .populatedDoc (populateUser db2 p)⟩
        rw [populateUser_congr db1 db2 p hu]
    unfold profileGetMeHandler profileFindOneByUser
    rw [hp]
    exact harm (db2.profiles.find? (fun p => p.user = userId))
  · unfold profileGetAllHandler
    rw [hp]
    have : db2.profiles.map (populateUser db1)
        = db2.profiles.map (populateUser db2) :=
      List.map_congr_left (fun p _ => populateUser_congr db1 db2 p hu)
    rw [this]
  · have harm2 : ∀ o : Option StoredProfile,
        (match o with
         | none => (⟨400, .msg "Profile not found"⟩ : Resp)
         | some p => ⟨200, .populatedDoc (populateUser db1 p)⟩)
        = (match o with
         | none => (⟨400, .msg "Profile not found"⟩ : Resp)
         | some p => ⟨200, .populatedDoc (populateUser db2 p)⟩) := by
      intro o
      cases o with
      | none => rfl
      | some p =>
        show (⟨200, .populatedDoc (populateUser db1 p)⟩ : Resp)
          = ⟨200, .populatedDoc (populateUser db2 p)⟩
        rw [populateUser_congr db1 db2 p hu]
    unfold profileGetByUserIdHandler profileFindOneByUser
    cases hc : castObjectId param with
    | none => rfl
    | some uid =>
      show (match db1.profiles.find? (fun p => p.user = uid) with
         | none => (⟨400, .msg "Profile not found"⟩ : Resp)
         | some p => ⟨200, .populatedDoc (populateUser db1 p)⟩)
        = (match db2.profiles.find? (fun p => p.user = uid) with
         | none => (⟨400, .msg "Profile not found"⟩ : Resp)
         | some p => ⟨200, .populatedDoc (populateUser db2 p)⟩)
      rw [hp]
      exact harm2 (db2.profiles.find? (fun p => p.user = uid))

/-- Witness for C9: two one-user stores whose only difference is the
stored password hash. -/
theorem reads_independent_of_password_hashes_witness :
    authGetHandler ⟨[⟨1, "a@x.com", "hashA", "av"⟩],
        [⟨10, 1, "F", "L", "fl", 0⟩], 11⟩ 1
      = authGetHandler ⟨[⟨1, "a@x.com", "hashB", "av"⟩],
        [⟨10, 1, "F", "L", "fl", 0⟩], 11⟩ 1 ∧
    profileGetMeHandler ⟨[⟨1, "a@x.com", "hashA", "av"⟩],
        [⟨10, 1, "F", "L", "fl", 0⟩], 11⟩ 1
      = profileGetMeHandler ⟨[⟨1, "a@x.com", "hashB", "av"⟩],
        [⟨10, 1, "F", "L", "fl", 0⟩], 11⟩ 1 ∧
    profileGetAllHandler ⟨[⟨1, "a@x.com", "hashA", "av"⟩],
        [⟨10, 1, "F", "L", "fl", 0⟩], 11⟩
      = profileGetAllHandler ⟨[⟨1, "a@x.com", "hashB", "av"⟩],
        [⟨10, 1, "F", "L", "fl", 0⟩], 11⟩ ∧
    profileGetByUserIdHandler ⟨[⟨1, "a@x.com", "hashA", "av"⟩],
        [⟨10, 1, "F", "L", "fl", 0⟩], 11⟩ "abc"
      = profileGetByUserIdHandler ⟨[⟨1, "a@x.com", "hashB", "av"⟩],
        [⟨10, 1, "F", "L", "fl", 0⟩], 11⟩ "abc" :=
  reads_independent_of_password_hashes
    ⟨[⟨1, "a@x.com", "hashA", "av"⟩], [⟨10, 1, "F", "L", "fl", 0⟩], 11⟩
    ⟨[⟨1, "a@x.com", "hashB", "av"⟩], [⟨10, 1, "F", "L", "fl", 0⟩], 11⟩
    1 "abc"
    ⟨List.Forall₂.cons ⟨rfl, rfl, rfl⟩ List.Forall₂.nil, rfl⟩
